import Mathlib

/-!
Formal model of the DashScopeRouter gateway's request-dispatch and
response-normalization layer, shallowly embedded from the Python sources
(`main.py`, `routes/transcriptions.py`, `routes/speech.py`,
`routes/images.py`, `utils/common.py`).

External collaborators (the DashScope SDK calls, HTTP byte fetches,
base64 codecs, the MIME guesser and wall-clock reads) are modelled as
oracle parameters; everything the gateway itself computes is translated
directly from the source.  Python exceptions raised as `HTTPException`
are modelled with `Except`, and uncaught dynamic-typing faults with a
separate `Fault.uncaught` constructor.
-/

set_option autoImplicit false

deriving instance DecidableEq for Except

namespace DSR

/-- Python `str.strip()` whitespace class (ASCII fragment). -/
def isPySpace (c : Char) : Bool :=
  c = ' ' || c = '\t' || c = '\n' || c = '\r' || c = '\x0b' || c = '\x0c'

/-- Strip `isPySpace` characters from both ends of a character list. -/
def pyStripList (l : List Char) : List Char :=
  ((l.dropWhile isPySpace).reverse.dropWhile isPySpace).reverse

/-- Python `s.strip()`. -/
def pyStrip (s : String) : String :=
  ⟨pyStripList s.data⟩

/-- Python slice `s[n:]` (by characters). -/
def pyDrop (n : Nat) (s : String) : String :=
  ⟨s.data.drop n⟩

/-- Whether `sub` occurs as a contiguous infix of `l`. -/
def infixOf (sub : List Char) : List Char → Bool
  | [] => sub.isEmpty
  | c :: rest => sub.isPrefixOf (c :: rest) || infixOf sub rest

/-- Python `sub in s` on strings. -/
def pyContains (sub s : String) : Bool :=
  infixOf sub.data s.data

/-- Python `s.startswith(pre)`. -/
def pyStartsWith (s pre : String) : Bool :=
  pre.data.isPrefixOf s.data

/-- Python `s.lower()` (ASCII fragment). -/
def pyLower (s : String) : String :=
  ⟨s.data.map Char.toLower⟩

/-- Fuel-bounded replacement of every occurrence of `pat` by `rep`;
the fuel is the input length, which bounds the number of steps. -/
def replaceFuel (pat rep : List Char) : Nat → List Char → List Char
  | 0, l => l
  | _ + 1, [] => []
  | fuel + 1, c :: rest =>
    if pat.isPrefixOf (c :: rest) && !pat.isEmpty then
      rep ++ replaceFuel pat rep fuel ((c :: rest).drop pat.length)
    else c :: replaceFuel pat rep fuel rest

/-- Python `s.replace(pat, rep)` for a non-empty pattern. -/
def pyReplace (s pat rep : String) : String :=
  ⟨replaceFuel pat.data rep.data s.data.length s.data⟩

/-- The JSON/form scalar values the gateway's request bodies carry. -/
inductive PyValue where
  | pstr : String → PyValue
  | pint : Int → PyValue
  | pbool : Bool → PyValue
  | pnull : PyValue
  deriving DecidableEq

/-- Python truthiness of a scalar value. -/
def PyValue.truthy : PyValue → Bool
  | .pstr s => !s.isEmpty
  | .pint n => n != 0
  | .pbool b => b
  | .pnull => false

/-- Python `str(v)` on a scalar value. -/
def PyValue.str : PyValue → String
  | .pstr s => s
  | .pint n => toString n
  | .pbool b => if b then "True" else "False"
  | .pnull => "None"

/-- Python `x or y` on scalar values. -/
def pyOr (a b : PyValue) : PyValue :=
  if a.truthy then a else b

/-- Parse a run of decimal digits; `none` if empty or non-digit. -/
def parseDigits (l : List Char) : Option Nat :=
  if l.isEmpty then none
  else if l.all Char.isDigit then
    some (l.foldl (fun a c => a * 10 + (c.toNat - 48)) 0)
  else none

/-- Python `int(s)` on a string: optional sign, digits, outer whitespace. -/
def pyIntOfString (s : String) : Except String Int :=
  match pyStripList s.data with
  | '-' :: rest =>
    match parseDigits rest with
    | some n => .ok (-(n : Int))
    | none => .error ("ValueError: invalid literal for int: " ++ s)
  | '+' :: rest =>
    match parseDigits rest with
    | some n => .ok (n : Int)
    | none => .error ("ValueError: invalid literal for int: " ++ s)
  | t =>
    match parseDigits t with
    | some n => .ok (n : Int)
    | none => .error ("ValueError: invalid literal for int: " ++ s)

/-- Python `int(v)` on a scalar value; `.error` models the raised fault. -/
def PyValue.toInt : PyValue → Except String Int
  | .pstr s => pyIntOfString s
  | .pint n => .ok n
  | .pbool b => .ok (if b then 1 else 0)
  | .pnull => .error "TypeError: int() argument must not be None"

/-- A parsed request body: a flat string-keyed dictionary. -/
def Bodydict : Type := List (String × PyValue)

instance : DecidableEq Bodydict := by
  unfold Bodydict
  infer_instance

/-- Python `d.get(k, dflt)`. -/
def dictGet (d : Bodydict) (k : String) (dflt : PyValue) : PyValue :=
  match d.lookup k with
  | some v => v
  | none => dflt

/-- The body of an OpenAI-style error envelope. -/
structure ErrorBody where
  message : String
  etype : String
  code : Option String
  deriving DecidableEq

/-- A raised `fastapi.HTTPException`: status code plus error detail. -/
structure HTTPErr where
  status : Nat
  detail : ErrorBody
  deriving DecidableEq

/-- How a handler can fail: a raised `HTTPException`, or an uncaught
Python-level fault (which FastAPI would surface as a 500). -/
inductive Fault where
  | httpExc : HTTPErr → Fault
  | uncaught : String → Fault
  deriving DecidableEq

/-- The HTTP status of an outcome when it is a raised `HTTPException`. -/
def faultStatus {α : Type} : Except Fault α → Option Nat
  | .error (.httpExc e) => some e.status
  | _ => none

/-- The error type of an outcome when it is a raised `HTTPException`. -/
def faultEtype {α : Type} : Except Fault α → Option String
  | .error (.httpExc e) => some e.detail.etype
  | _ => none

/-- The status-clamping expression used at every backend-error site:
`rsp.status_code if 400 <= rsp.status_code < 600 else 502`. -/
def upstreamStatus (s : Nat) : Nat :=
  if 400 ≤ s ∧ s < 600 then s else 502

end DSR

namespace Common
/-! Model of `utils/common.py`. -/

open DSR

/-- `build_openai_error` from `utils/common.py`: the `code` key is set
only when `code` is truthy. -/
def build_openai_error (message : String) (error_type : String)
    (code : Option String) : ErrorBody :=
  { message := message
    etype := error_type
    code :=
      match code with
      | some c => if c.isEmpty then none else some c
      | none => none }

/-- The error raised by `extract_api_key` when no key is available. -/
def missing_key_error : HTTPErr :=
  ⟨401, build_openai_error
    "未提供 API Key。请通过 Authorization: Bearer <key> 或环境变量 DASHSCOPE_API_KEY 设置。"
    "invalid_request_error" (some "missing_api_key")⟩

/-- The fallback taken when the `Authorization` header is absent or empty:
use the environment default key if truthy, else raise 401. -/
def extract_api_key_fallback (defaultKey : String) : Except HTTPErr String :=
  if defaultKey.isEmpty then .error missing_key_error else .ok defaultKey

/-- `extract_api_key` from `utils/common.py`.  `defaultKey` models the
module-level `DEFAULT_API_KEY` read from the environment. -/
def extract_api_key (authorization : Option String) (defaultKey : String) :
    Except HTTPErr String :=
  match authorization with
  | some a =>
    if a.isEmpty then extract_api_key_fallback defaultKey
    else if pyStartsWith a "Bearer " then .ok (pyStrip (pyDrop 7 a))
    else .ok (pyStrip a)
  | none => extract_api_key_fallback defaultKey

/-- `MIME_FALLBACK` from `utils/common.py`. -/
def MIME_FALLBACK : List (String × String) :=
  [(".mp3", "audio/mpeg"), (".wav", "audio/wav"), (".flac", "audio/flac"),
   (".m4a", "audio/mp4"), (".ogg", "audio/ogg"), (".webm", "audio/webm"),
   (".mp4", "audio/mp4"), (".opus", "audio/opus"), (".aac", "audio/aac"),
   (".wma", "audio/x-ms-wma"), (".amr", "audio/amr"), (".pcm", "audio/pcm")]

/-- Python `os.path.splitext(p)[1]`: the extension from the last dot of the
final path component, never splitting at leading dots. -/
def splitext_ext (p : String) : String :=
  let base := (p.data.reverse.takeWhile (fun c => c != '/')).reverse
  let k := (base.takeWhile (fun c => c == '.')).length
  let rest := base.drop k
  if rest.contains '.' then
    ⟨'.' :: (rest.reverse.takeWhile (fun c => c != '.')).reverse⟩
  else ""

/-- The filename-based part of `resolve_mime_type`: extension table, then
the `mimetypes.guess_type` oracle, then the fixed default. -/
def mime_from_filename (filename : Option String)
    (guess : String → Option String) : String :=
  match filename with
  | some fn =>
    if fn.isEmpty then "audio/mpeg"
    else
      let ext := pyLower (splitext_ext fn)
      match MIME_FALLBACK.lookup ext with
      | some m => m
      | none =>
        match guess fn with
        | some g => if g.isEmpty then "audio/mpeg" else g
        | none => "audio/mpeg"
  | none => "audio/mpeg"

/-- `resolve_mime_type` from `utils/common.py`, over the upload's declared
content type and filename. -/
def resolve_mime_type (content_type filename : Option String)
    (guess : String → Option String) : String :=
  match content_type with
  | some ct =>
    if !ct.isEmpty && ct != "application/octet-stream" then ct
    else mime_from_filename filename guess
  | none => mime_from_filename filename guess

end Common

namespace Images
/-! Model of the pure declarations of `routes/images.py`. -/

open DSR

/-- `SYNC_MODELS` from `routes/images.py`. -/
def SYNC_MODELS : List String :=
  ["qwen-image-max", "qwen-image-max-2025-12-30", "qwen-image-plus",
   "qwen-image-plus-2026-01-09", "qwen-image"]

/-- `ASYNC_MODELS` from `routes/images.py`. -/
def ASYNC_MODELS : List String :=
  ["qwen-image-plus", "qwen-image-plus-2026-01-09", "qwen-image",
   "wan2.6-t2i", "wan2.5-t2i-preview", "wan2.2-t2i-plus", "wan2.2-t2i-flash",
   "wanx2.1-t2i-plus", "wanx2.1-t2i-turbo", "wanx2.0-t2i-turbo"]

/-- `SYNC_ONLY_MODELS` from `routes/images.py`. -/
def SYNC_ONLY_MODELS : List String :=
  ["qwen-image-max", "qwen-image-max-2025-12-30"]

/-- `ASYNC_ONLY_MODELS` from `routes/images.py`. -/
def ASYNC_ONLY_MODELS : List String :=
  ["wan2.6-t2i", "wan2.5-t2i-preview", "wan2.2-t2i-plus", "wan2.2-t2i-flash",
   "wanx2.1-t2i-plus", "wanx2.1-t2i-turbo", "wanx2.0-t2i-turbo"]

/-- `MODEL_MAP` from `routes/images.py`. -/
def MODEL_MAP : List (String × String) :=
  [("dall-e-2", "qwen-image-plus"), ("dall-e-3", "qwen-image-max"),
   ("gpt-image-1", "qwen-image-max")]

/-- `DEFAULT_SIZE` from `routes/images.py`. -/
def DEFAULT_SIZE : String := "1664*928"

/-- `_resolve_model` from `routes/images.py`: map via `MODEL_MAP` on the
lowercased name, pass the original through when unmapped. -/
def resolve_model (model : String) : String :=
  match MODEL_MAP.lookup (pyLower model) with
  | some m => m
  | none => model

/-- `_normalize_size` from `routes/images.py`; `.error` models the
`AttributeError` raised when a truthy non-string reaches `.replace`. -/
def normalize_size (size : PyValue) : Except String String :=
  if !size.truthy then .ok DEFAULT_SIZE
  else
    match size with
    | .pstr s => .ok (pyReplace (pyReplace s "x" "*") "X" "*")
    | _ => .error "AttributeError: replace"

/-- `_use_async_api` from `routes/images.py`. -/
def use_async_api (model : String) : Bool :=
  if ASYNC_ONLY_MODELS.contains model then true
  else if SYNC_ONLY_MODELS.contains model || SYNC_MODELS.contains model then
    false
  else true

end Images

namespace Speech
/-! Model of the pure declarations of `routes/speech.py`. -/

open DSR

/-- `VOICE_MAP` from `routes/speech.py`. -/
def VOICE_MAP : List (String × String) :=
  [("alloy", "Chelsie"), ("ash", "Ethan"), ("ballad", "Serena"),
   ("coral", "Cherry"), ("echo", "Kai"), ("fable", "Maia"),
   ("onyx", "Nofish"), ("nova", "Vivian"), ("sage", "Moon"),
   ("shimmer", "Bella")]

/-- `RESPONSE_MIME` from `routes/speech.py`. -/
def RESPONSE_MIME : List (String × String) :=
  [("mp3", "audio/mpeg"), ("opus", "audio/opus"), ("aac", "audio/aac"),
   ("flac", "audio/flac"), ("wav", "audio/wav"), ("pcm", "audio/pcm")]

/-- `MODEL_MAP` from `routes/speech.py`. -/
def MODEL_MAP : List (String × String) :=
  [("tts-1", "qwen3-tts-flash"), ("tts-1-hd", "qwen3-tts-flash")]

/-- `DEFAULT_VOICE` from `routes/speech.py`. -/
def DEFAULT_VOICE : String := "Chelsie"

/-- `_resolve_voice` from `routes/speech.py`. -/
def resolve_voice (voice : String) : String :=
  match VOICE_MAP.lookup (pyLower voice) with
  | some v => v
  | none => voice

/-- `_resolve_model` from `routes/speech.py`. -/
def resolve_model (model : String) : String :=
  match MODEL_MAP.lookup (pyLower model) with
  | some m => m
  | none => model

end Speech

namespace DSR
/-! Wire and backend-reply shapes shared by the transcription handlers. -/

/-- One content item of a DashScope multimodal message. -/
inductive MsgContent where
  | mtext : String → MsgContent
  | maudio : String → MsgContent
  deriving DecidableEq

/-- One DashScope multimodal message. -/
structure Msg where
  role : String
  content : List MsgContent
  deriving DecidableEq

/-- The `asr_options` dictionary: `enable_itn` always set, `language`
present only when the request supplied a truthy language. -/
structure AsrOptions where
  enable_itn : Bool
  language : Option String
  deriving DecidableEq

/-- The arguments of one `dashscope.MultiModalConversation.call` made by a
transcription handler. -/
structure AsrCall where
  api_key : String
  model : String
  messages : List Msg
  result_format : String
  asr_options : AsrOptions
  deriving DecidableEq

/-- A DashScope reply to a transcription call.  `message` is the
`message` attribute with `""` for absent/falsy; `srepr` is `str(response)`;
`textResult` is the outcome of extracting
`output.choices[0].message.content[0]["text"]`, with `.error` carrying the
exception text of a failed extraction. -/
structure AsrReply where
  status_code : Nat
  message : String
  srepr : String
  code : Option String
  textResult : Except String String
  deriving DecidableEq

/-- The multipart-form transcription request, plus the `Authorization`
header.  `model` and `response_format` carry FastAPI's form defaults the
same way the Python handler receives them. -/
structure TransRequest where
  file_bytes : List Nat
  file_content_type : Option String
  file_filename : Option String
  model : String
  language : Option String
  prompt : Option String
  response_format : Option String
  authorization : Option String
  deriving DecidableEq

/-- The external collaborators of a transcription handler: the environment
default key, the `mimetypes.guess_type` oracle, the base64 encoder, the
DashScope backend (`.error` = raised transport exception), and the
measured elapsed seconds. -/
structure TransEnv where
  defaultKey : String
  guess : String → Option String
  b64encode : List Nat → String
  backend : AsrCall → Except String AsrReply
  elapsed : Nat

/-- The `verbose_json` response body (segments and words always empty). -/
structure VerboseBody where
  task : String
  language : String
  duration : Nat
  text : String
  segments : List String
  words : List String
  deriving DecidableEq

/-- A transcription wire response. -/
inductive TransResponse where
  | plain : String → Option String → TransResponse
  | jsonText : String → TransResponse
  | jsonVerbose : VerboseBody → TransResponse
  deriving DecidableEq

/-- A transcription handler's outcome: the response or fault, and the
backend calls it issued. -/
structure TransOutcome where
  result : Except Fault TransResponse
  calls : List AsrCall
  deriving DecidableEq

/-- Python `response_format or dflt` for an optional string. -/
def or_default (v : Option String) (dflt : String) : String :=
  match v with
  | some s => if s.isEmpty then dflt else s
  | none => dflt

end DSR

namespace Trans
/-! Model of `routes/transcriptions.py`. -/

open DSR

/-- `_format_verbose_json` from `routes/transcriptions.py`. -/
def format_verbose_json (text : String) (model : String)
    (duration : Option Nat) : VerboseBody :=
  { task := "transcribe"
    language := "unknown"
    duration := duration.getD 0
    text := text
    segments := []
    words := [] }

/-- `_format_srt` from `routes/transcriptions.py`. -/
def format_srt (text : String) : String :=
  "1\n00:00:00,000 --> 99:59:59,999\n" ++ text ++ "\n"

/-- `_format_vtt` from `routes/transcriptions.py`. -/
def format_vtt (text : String) : String :=
  "WEBVTT\n\n00:00:00.000 --> 99:59:59.999\n" ++ text ++ "\n"

/-- The `POST /v1/audio/transcriptions` handler of
`routes/transcriptions.py`. -/
def audio_transcriptions (env : TransEnv) (req : TransRequest) :
    TransOutcome :=
  match Common.extract_api_key req.authorization env.defaultKey with
  | .error e => ⟨.error (.httpExc e), []⟩
  | .ok api_key =>
    if req.file_bytes.isEmpty then
      ⟨.error (.httpExc ⟨400,
        Common.build_openai_error "上传的音频文件为空。" "invalid_request_error" none⟩), []⟩
    else
      let mime_type :=
        Common.resolve_mime_type req.file_content_type req.file_filename env.guess
      let data_uri := "data:" ++ mime_type ++ ";base64," ++ env.b64encode req.file_bytes
      let system_text := (req.prompt).getD ""
      let messages : List Msg :=
        [⟨"system", [.mtext system_text]⟩, ⟨"user", [.maudio data_uri]⟩]
      let asr_options : AsrOptions :=
        ⟨false,
          match req.language with
          | some l => if l.isEmpty then none else some l
          | none => none⟩
      let call : AsrCall := ⟨api_key, req.model, messages, "message", asr_options⟩
      match env.backend call with
      | .error e =>
        ⟨.error (.httpExc ⟨502,
          Common.build_openai_error ("调用 DashScope 失败: " ++ e) "upstream_error" none⟩),
         [call]⟩
      | .ok response =>
        if response.status_code ≠ 200 then
          let error_msg :=
            if response.message.isEmpty then response.srepr else response.message
          ⟨.error (.httpExc ⟨upstreamStatus response.status_code,
            Common.build_openai_error ("DashScope 错误: " ++ error_msg)
              "upstream_error" response.code⟩), [call]⟩
        else
          match response.textResult with
          | .error e =>
            ⟨.error (.httpExc ⟨502,
              Common.build_openai_error ("无法解析上游响应: " ++ e) "upstream_error" none⟩),
             [call]⟩
          | .ok text =>
            let fmt := pyLower (or_default req.response_format "json")
            if fmt = "text" then ⟨.ok (.plain text none), [call]⟩
            else if fmt = "verbose_json" then
              ⟨.ok (.jsonVerbose (format_verbose_json text req.model (some env.elapsed))),
               [call]⟩
            else if fmt = "srt" then
              ⟨.ok (.plain (format_srt text) (some "text/plain")), [call]⟩
            else if fmt = "vtt" then
              ⟨.ok (.plain (format_vtt text) (some "text/plain")), [call]⟩
            else ⟨.ok (.jsonText text), [call]⟩

end Trans

namespace MainApp
/-! Model of the standalone application `main.py`, which carries its own
copies of the helpers and its own transcription handler. -/

open DSR

/-- `_build_openai_error` from `main.py`. -/
def build_openai_error (message : String) (error_type : String)
    (code : Option String) : ErrorBody :=
  { message := message
    etype := error_type
    code :=
      match code with
      | some c => if c.isEmpty then none else some c
      | none => none }

/-- The fallback of `_extract_api_key` from `main.py`; the error detail is
written as an inline dictionary in the source. -/
def extract_api_key_fallback (defaultKey : String) : Except HTTPErr String :=
  if defaultKey.isEmpty then
    .error ⟨401,
      { message := "未提供 API Key。请通过 Authorization: Bearer <key> 或环境变量 DASHSCOPE_API_KEY 设置。"
        etype := "invalid_request_error"
        code := some "missing_api_key" }⟩
  else .ok defaultKey

/-- `_extract_api_key` from `main.py`. -/
def extract_api_key (authorization : Option String) (defaultKey : String) :
    Except HTTPErr String :=
  match authorization with
  | some a =>
    if a.isEmpty then extract_api_key_fallback defaultKey
    else if pyStartsWith a "Bearer " then .ok (pyStrip (pyDrop 7 a))
    else .ok (pyStrip a)
  | none => extract_api_key_fallback defaultKey

/-- `MIME_FALLBACK` from `main.py`. -/
def MIME_FALLBACK : List (String × String) :=
  [(".mp3", "audio/mpeg"), (".wav", "audio/wav"), (".flac", "audio/flac"),
   (".m4a", "audio/mp4"), (".ogg", "audio/ogg"), (".webm", "audio/webm"),
   (".mp4", "audio/mp4"), (".opus", "audio/opus"), (".aac", "audio/aac"),
   (".wma", "audio/x-ms-wma"), (".amr", "audio/amr"), (".pcm", "audio/pcm")]

/-- The filename-based part of `_resolve_mime_type` from `main.py`. -/
def mime_from_filename (filename : Option String)
    (guess : String → Option String) : String :=
  match filename with
  | some fn =>
    if fn.isEmpty then "audio/mpeg"
    else
      let ext := pyLower (Common.splitext_ext fn)
      match MIME_FALLBACK.lookup ext with
      | some m => m
      | none =>
        match guess fn with
        | some g => if g.isEmpty then "audio/mpeg" else g
        | none => "audio/mpeg"
  | none => "audio/mpeg"

/-- `_resolve_mime_type` from `main.py`. -/
def resolve_mime_type (content_type filename : Option String)
    (guess : String → Option String) : String :=
  match content_type with
  | some ct =>
    if !ct.isEmpty && ct != "application/octet-stream" then ct
    else mime_from_filename filename guess
  | none => mime_from_filename filename guess

/-- `_format_verbose_json` from `main.py`. -/
def format_verbose_json (text : String) (model : String)
    (duration : Option Nat) : VerboseBody :=
  { task := "transcribe"
    language := "unknown"
    duration := duration.getD 0
    text := text
    segments := []
    words := [] }

/-- `_format_srt` from `main.py`. -/
def format_srt (text : String) : String :=
  "1\n00:00:00,000 --> 99:59:59,999\n" ++ text ++ "\n"

/-- `_format_vtt` from `main.py`. -/
def format_vtt (text : String) : String :=
  "WEBVTT\n\n00:00:00.000 --> 99:59:59.999\n" ++ text ++ "\n"

/-- The `POST /v1/audio/transcriptions` handler of `main.py`. -/
def audio_transcriptions (env : TransEnv) (req : TransRequest) :
    TransOutcome :=
  match extract_api_key req.authorization env.defaultKey with
  | .error e => ⟨.error (.httpExc e), []⟩
  | .ok api_key =>
    if req.file_bytes.isEmpty then
      ⟨.error (.httpExc ⟨400,
        build_openai_error "上传的音频文件为空。" "invalid_request_error" none⟩), []⟩
    else
      let mime_type :=
        resolve_mime_type req.file_content_type req.file_filename env.guess
      let data_uri := "data:" ++ mime_type ++ ";base64," ++ env.b64encode req.file_bytes
      let system_text := (req.prompt).getD ""
      let messages : List Msg :=
        [⟨"system", [.mtext system_text]⟩, ⟨"user", [.maudio data_uri]⟩]
      let asr_options : AsrOptions :=
        ⟨false,
          match req.language with
          | some l => if l.isEmpty then none else some l
          | none => none⟩
      let call : AsrCall := ⟨api_key, req.model, messages, "message", asr_options⟩
      match env.backend call with
      | .error e =>
        ⟨.error (.httpExc ⟨502,
          build_openai_error ("调用 DashScope 失败: " ++ e) "upstream_error" none⟩),
         [call]⟩
      | .ok response =>
        if response.status_code ≠ 200 then
          let error_msg :=
            if response.message.isEmpty then response.srepr else response.message
          ⟨.error (.httpExc ⟨upstreamStatus response.status_code,
            build_openai_error ("DashScope 错误: " ++ error_msg)
              "upstream_error" response.code⟩), [call]⟩
        else
          match response.textResult with
          | .error e =>
            ⟨.error (.httpExc ⟨502,
              build_openai_error ("无法解析上游响应: " ++ e) "upstream_error" none⟩),
             [call]⟩
          | .ok text =>
            let fmt := pyLower (or_default req.response_format "json")
            if fmt = "text" then ⟨.ok (.plain text none), [call]⟩
            else if fmt = "verbose_json" then
              ⟨.ok (.jsonVerbose (format_verbose_json text req.model (some env.elapsed))),
               [call]⟩
            else if fmt = "srt" then
              ⟨.ok (.plain (format_srt text) (some "text/plain")), [call]⟩
            else if fmt = "vtt" then
              ⟨.ok (.plain (format_vtt text) (some "text/plain")), [call]⟩
            else ⟨.ok (.jsonText text), [call]⟩

end MainApp

namespace Speech
/-! The `POST /v1/audio/speech` handler of `routes/speech.py`. -/

open DSR

/-- A JSON-or-form request body as the handler receives it: the declared
content type, the result of attempting `request.json()` (`none` = the
parse raised), and the form dictionary. -/
structure SpeechRequest where
  content_type : String
  json_body : Option Bodydict
  form_body : Bodydict
  authorization : Option String
  deriving DecidableEq

/-- The arguments of one `dashscope.MultiModalConversation.call` made by
the speech handler. -/
structure TtsCall where
  api_key : String
  model : String
  text : PyValue
  voice : String
  stream : Bool
  deriving DecidableEq

/-- The `output.audio` object of a DashScope TTS reply; absent `url` or
`data` attributes are the empty string. -/
structure AudioObj where
  url : String
  data : String
  deriving DecidableEq

/-- A DashScope TTS reply.  `output_audio` is the `audio` member of
`output` (`none` models a missing field). -/
structure TtsReply where
  status_code : Nat
  message : String
  srepr : String
  code : Option String
  output_audio : Option AudioObj
  deriving DecidableEq

/-- The external collaborators of the speech handler. `b64decode` errors
model `binascii.Error` (a `ValueError`); `fetch` errors model
`httpx.HTTPError` (including `raise_for_status`). -/
structure SpeechEnv where
  defaultKey : String
  default_model : String
  backend : TtsCall → Except String TtsReply
  b64decode : String → Except String (List Nat)
  fetch : String → Except String (List Nat)

/-- The binary speech wire response: bytes, MIME, and the format echoed in
the attachment filename. -/
structure SpeechResponse where
  content : List Nat
  media_type : String
  response_format : String
  deriving DecidableEq

/-- The speech handler's outcome: the response or fault, the backend
calls made, and the URLs it downloaded. -/
structure SpeechOutcome where
  result : Except Fault SpeechResponse
  calls : List TtsCall
  fetched : List String
  deriving DecidableEq

/-- The body-parsing step of the speech handler (content-type dispatch
between JSON and form, with the two 400 failures of the source). -/
def parse_body (req : SpeechRequest) : Except HTTPErr Bodydict :=
  if pyContains "application/json" req.content_type then
    match req.json_body with
    | some b => .ok b
    | none =>
      .error ⟨400, Common.build_openai_error "请求体必须为有效的 JSON。"
        "invalid_request_error" none⟩
  else if pyContains "multipart/form-data" req.content_type
      || pyContains "application/x-www-form-urlencoded" req.content_type then
    .ok req.form_body
  else
    match req.json_body with
    | some b => .ok b
    | none =>
      .error ⟨400, Common.build_openai_error
        ("不支持的 Content-Type: " ++ req.content_type ++ "。请使用 application/json。")
        "invalid_request_error" none⟩

/-- Python `audio_data.split(",", 1)[1]`: the text after the first comma,
`none` when there is no comma (an `IndexError` in the source). -/
def splitFirstComma (s : String) : Option String :=
  if s.data.contains ',' then
    some ⟨(s.data.dropWhile (fun c => c != ',')).drop 1⟩
  else none

/-- The audio-extraction block of the speech handler (source lines
209-261): inline `data` is decoded, the `url` is fetched only when `data`
is falsy, and both absent is a 502.  Returns the bytes or fault, paired
with the list of URLs fetched. -/
def extract_audio (audio_obj : Option AudioObj)
    (b64decode : String → Except String (List Nat))
    (fetch : String → Except String (List Nat)) :
    Except Fault (List Nat) × List String :=
  match audio_obj with
  | none =>
    (.error (.httpExc ⟨502,
      Common.build_openai_error "无法解析上游 TTS 响应: 响应中未找到 audio 字段"
        "upstream_error" none⟩), [])
  | some audio =>
    if !audio.data.isEmpty then
      let decoded :=
        if pyStartsWith audio.data "data:" then
          match splitFirstComma audio.data with
          | some b64_part => b64decode b64_part
          | none => .error "list index out of range"
        else b64decode audio.data
      match decoded with
      | .ok audio_bytes => (.ok audio_bytes, [])
      | .error e =>
        (.error (.httpExc ⟨502,
          Common.build_openai_error ("无法解析上游 TTS 响应: " ++ e)
            "upstream_error" none⟩), [])
    else if !audio.url.isEmpty then
      match fetch audio.url with
      | .ok audio_bytes => (.ok audio_bytes, [audio.url])
      | .error e =>
        (.error (.httpExc ⟨502,
          Common.build_openai_error ("下载音频失败: " ++ e)
            "upstream_error" none⟩), [audio.url])
    else
      (.error (.httpExc ⟨502,
        Common.build_openai_error "无法解析上游 TTS 响应: audio 字段中无 url 也无 data"
          "upstream_error" none⟩), [])

/-- The `POST /v1/audio/speech` handler of `routes/speech.py`. -/
def audio_speech (env : SpeechEnv) (req : SpeechRequest) : SpeechOutcome :=
  match Common.extract_api_key req.authorization env.defaultKey with
  | .error e => ⟨.error (.httpExc e), [], []⟩
  | .ok api_key =>
    match parse_body req with
    | .error e => ⟨.error (.httpExc e), [], []⟩
    | .ok body =>
      let model := dictGet body "model" (.pstr env.default_model)
      let text := dictGet body "input" .pnull
      let voice := pyOr (dictGet body "voice" (.pstr "")) (.pstr "")
      let response_format := pyLower (PyValue.str (dictGet body "response_format" (.pstr "mp3")))
      if !text.truthy then
        ⟨.error (.httpExc ⟨400,
          Common.build_openai_error "缺少必填参数: input" "invalid_request_error" none⟩),
         [], []⟩
      else
        let voice := if !voice.truthy then PyValue.pstr DEFAULT_VOICE else voice
        match model, voice with
        | .pstr model_s, .pstr voice_s =>
          let ds_model := resolve_model model_s
          let ds_voice := resolve_voice voice_s
          let call : TtsCall := ⟨api_key, ds_model, text, ds_voice, false⟩
          match env.backend call with
          | .error e =>
            ⟨.error (.httpExc ⟨502,
              Common.build_openai_error ("调用 DashScope 失败: " ++ e)
                "upstream_error" none⟩), [call], []⟩
          | .ok response =>
            if response.status_code ≠ 200 then
              let error_msg :=
                if response.message.isEmpty then response.srepr else response.message
              ⟨.error (.httpExc ⟨upstreamStatus response.status_code,
                Common.build_openai_error ("DashScope 错误: " ++ error_msg)
                  "upstream_error" response.code⟩), [call], []⟩
            else
              match extract_audio response.output_audio env.b64decode env.fetch with
              | (.error f, fetched) => ⟨.error f, [call], fetched⟩
              | (.ok audio_bytes, fetched) =>
                let mime :=
                  match RESPONSE_MIME.lookup response_format with
                  | some m => m
                  | none => "audio/mpeg"
                ⟨.ok ⟨audio_bytes, mime, response_format⟩, [call], fetched⟩
        | _, _ => ⟨.error (.uncaught "AttributeError: lower"), [], []⟩

end Speech

namespace Images
/-! The `POST /v1/images/generations` handler of `routes/images.py`. -/

open DSR

/-- A JSON-or-form image-generation request, as for speech. -/
structure ImagesRequest where
  content_type : String
  json_body : Option Bodydict
  form_body : Bodydict
  authorization : Option String
  deriving DecidableEq

/-- One backend image call; `useAsync` records whether it went through
`ImageSynthesis.call` (async convention) or
`MultiModalConversation.call` (sync convention). -/
structure ImgCall where
  useAsync : Bool
  api_key : String
  model : String
  prompt : PyValue
  negative_prompt : PyValue
  n : Int
  size : String
  prompt_extend : PyValue
  watermark : PyValue
  deriving DecidableEq

/-- One produced asset as both call parsers deliver it: URL plus the
backend's revised prompt (empty when not supplied). -/
structure ImgItem where
  url : String
  revised_prompt : String
  deriving DecidableEq

/-- A backend image reply: status metadata plus the outcome of parsing
its result items (`.error` carries the raised extraction fault). -/
structure ImgReply where
  status_code : Nat
  message : String
  srepr : String
  code : Option String
  parsed : Except String (List ImgItem)
  deriving DecidableEq

/-- The external collaborators of the images handler; `download` models
`_download_as_base64` (`none` = failed download). -/
structure ImagesEnv where
  defaultKey : String
  default_model : String
  backend : ImgCall → Except String ImgReply
  download : String → Option String
  now : Nat

/-- One `data` entry of the OpenAI-compatible response. -/
structure ImgEntry where
  b64_json : Option String
  url : Option String
  revised_prompt : Option String
  deriving DecidableEq

/-- The images wire response. -/
structure ImagesResponse where
  created : Nat
  data : List ImgEntry
  deriving DecidableEq

/-- The images handler's outcome: response or fault, backend calls made,
and URLs passed to `_download_as_base64`. -/
structure ImagesOutcome where
  result : Except Fault ImagesResponse
  calls : List ImgCall
  downloads : List String
  deriving DecidableEq

/-- The body-parsing step of the images handler (identical branch
structure and messages to the speech handler's). -/
def parse_body (req : ImagesRequest) : Except HTTPErr Bodydict :=
  if pyContains "application/json" req.content_type then
    match req.json_body with
    | some b => .ok b
    | none =>
      .error ⟨400, Common.build_openai_error "请求体必须为有效的 JSON。"
        "invalid_request_error" none⟩
  else if pyContains "multipart/form-data" req.content_type
      || pyContains "application/x-www-form-urlencoded" req.content_type then
    .ok req.form_body
  else
    match req.json_body with
    | some b => .ok b
    | none =>
      .error ⟨400, Common.build_openai_error
        ("不支持的 Content-Type: " ++ req.content_type ++ "。请使用 application/json。")
        "invalid_request_error" none⟩

/-- `_call_async_api` from `routes/images.py` (`ImageSynthesis.call`);
a backend `.error` is a raised transport exception, surfaced as
`Fault.uncaught` for the handler's generic `except Exception` clause. -/
def call_async_api (api_key model : String) (prompt negative_prompt : PyValue)
    (n : Int) (size : String) (prompt_extend watermark : PyValue)
    (backend : ImgCall → Except String ImgReply) :
    Except Fault (List ImgItem) × List ImgCall :=
  let call : ImgCall :=
    ⟨true, api_key, model, prompt, pyOr negative_prompt (.pstr " "),
     n, size, prompt_extend, watermark⟩
  let result : Except Fault (List ImgItem) :=
    match backend call with
    | .error e => .error (.uncaught e)
    | .ok rsp =>
      if rsp.status_code ≠ 200 then
        let error_msg := if rsp.message.isEmpty then rsp.srepr else rsp.message
        .error (.httpExc ⟨upstreamStatus rsp.status_code,
          Common.build_openai_error ("DashScope 错误: " ++ error_msg)
            "upstream_error" rsp.code⟩)
      else
        match rsp.parsed with
        | .error e =>
          .error (.httpExc ⟨502,
            Common.build_openai_error ("无法解析上游响应: " ++ e)
              "upstream_error" none⟩)
        | .ok results => .ok results
  (result, [call])

/-- `_call_sync_api` from `routes/images.py`
(`MultiModalConversation.call`), including the empty-result 502. -/
def call_sync_api (api_key model : String) (prompt negative_prompt : PyValue)
    (n : Int) (size : String) (prompt_extend watermark : PyValue)
    (backend : ImgCall → Except String ImgReply) :
    Except Fault (List ImgItem) × List ImgCall :=
  let call : ImgCall :=
    ⟨false, api_key, model, prompt, pyOr negative_prompt (.pstr ""),
     n, size, prompt_extend, watermark⟩
  let result : Except Fault (List ImgItem) :=
    match backend call with
    | .error e => .error (.uncaught e)
    | .ok rsp =>
      if rsp.status_code ≠ 200 then
        let error_msg := if rsp.message.isEmpty then rsp.srepr else rsp.message
        .error (.httpExc ⟨upstreamStatus rsp.status_code,
          Common.build_openai_error ("DashScope 错误: " ++ error_msg)
            "upstream_error" rsp.code⟩)
      else
        match rsp.parsed with
        | .error e =>
          .error (.httpExc ⟨502,
            Common.build_openai_error ("无法解析上游响应: " ++ e)
              "upstream_error" none⟩)
        | .ok results =>
          if results.isEmpty then
            .error (.httpExc ⟨502,
              Common.build_openai_error "上游响应中未包含图片数据。"
                "upstream_error" none⟩)
          else .ok results
  (result, [call])

/-- The per-item response-entry construction of step 5 of the handler:
download-and-base64 when `b64_json` was requested (URL fallback on a
failed download), otherwise the URL, plus `revised_prompt` when truthy. -/
def build_entry (response_format : String) (download : String → Option String)
    (item : ImgItem) : ImgEntry :=
  let base : ImgEntry :=
    if response_format = "b64_json" then
      match download item.url with
      | some b64 => ⟨some b64, none, none⟩
      | none => ⟨none, some item.url, none⟩
    else ⟨none, some item.url, none⟩
  if item.revised_prompt.isEmpty then base
  else { base with revised_prompt := some item.revised_prompt }

/-- The `POST /v1/images/generations` handler of `routes/images.py`. -/
def images_generations (env : ImagesEnv) (req : ImagesRequest) :
    ImagesOutcome :=
  match Common.extract_api_key req.authorization env.defaultKey with
  | .error e => ⟨.error (.httpExc e), [], []⟩
  | .ok api_key =>
    match parse_body req with
    | .error e => ⟨.error (.httpExc e), [], []⟩
    | .ok body =>
      let model_raw := dictGet body "model" (.pstr env.default_model)
      let prompt := dictGet body "prompt" .pnull
      match (dictGet body "n" (.pint 1)).toInt with
      | .error e => ⟨.error (.uncaught e), [], []⟩
      | .ok n =>
        match normalize_size (dictGet body "size" .pnull) with
        | .error e => ⟨.error (.uncaught e), [], []⟩
        | .ok size =>
          let response_format :=
            pyLower (PyValue.str (dictGet body "response_format" (.pstr "url")))
          let negative_prompt := dictGet body "negative_prompt" (.pstr "")
          let prompt_extend := dictGet body "prompt_extend" (.pbool true)
          let watermark := dictGet body "watermark" (.pbool false)
          if !prompt.truthy then
            ⟨.error (.httpExc ⟨400,
              Common.build_openai_error "缺少必填参数: prompt"
                "invalid_request_error" none⟩), [], []⟩
          else
            match model_raw with
            | .pstr model_s =>
              let ds_model := resolve_model model_s
              let use_async := use_async_api ds_model
              let callResult :=
                if use_async then
                  call_async_api api_key ds_model prompt negative_prompt n size
                    prompt_extend watermark env.backend
                else
                  call_sync_api api_key ds_model prompt negative_prompt n size
                    prompt_extend watermark env.backend
              match callResult with
              | (.error (.httpExc e), cs) => ⟨.error (.httpExc e), cs, []⟩
              | (.error (.uncaught e), cs) =>
                ⟨.error (.httpExc ⟨502,
                  Common.build_openai_error ("调用 DashScope 失败: " ++ e)
                    "upstream_error" none⟩), cs, []⟩
              | (.ok result, cs) =>
                let data := result.map (build_entry response_format env.download)
                let downloads :=
                  if response_format = "b64_json" then result.map (fun i => i.url)
                  else []
                ⟨.ok ⟨env.now, data⟩, cs, downloads⟩
            | _ => ⟨.error (.uncaught "AttributeError: lower"), [], []⟩

end Images

namespace DSR
/-! ## Theorems about the embedded gateway -/

open Images Speech

/-- Helper: a non-empty `Authorization` header always yields some key. -/
theorem extract_some_ok (a d : String) (h : a.isEmpty = false) :
    ∃ k, Common.extract_api_key (some a) d = .ok k := by
  by_cases hb : pyStartsWith a "Bearer " = true
  · exact ⟨pyStrip (pyDrop 7 a), by simp [Common.extract_api_key, h, hb]⟩
  · exact ⟨pyStrip a, by simp [Common.extract_api_key, h, hb]⟩

/-- Helper: every backend call `_call_async_api` issues is marked async
and carries the model it was given. -/
theorem call_async_api_calls (api_key model : String)
    (prompt negative_prompt : PyValue) (n : Int) (size : String)
    (prompt_extend watermark : PyValue)
    (backend : ImgCall → Except String ImgReply) (c : ImgCall)
    (hc : c ∈ (call_async_api api_key model prompt negative_prompt n size
      prompt_extend watermark backend).2) :
    c.useAsync = true ∧ c.model = model := by
  simp only [call_async_api, List.mem_singleton] at hc
  subst hc
  exact ⟨rfl, rfl⟩

/-- Helper: every backend call `_call_sync_api` issues is marked sync
and carries the model it was given. -/
theorem call_sync_api_calls (api_key model : String)
    (prompt negative_prompt : PyValue) (n : Int) (size : String)
    (prompt_extend watermark : PyValue)
    (backend : ImgCall → Except String ImgReply) (c : ImgCall)
    (hc : c ∈ (call_sync_api api_key model prompt negative_prompt n size
      prompt_extend watermark backend).2) :
    c.useAsync = false ∧ c.model = model := by
  simp only [call_sync_api, List.mem_singleton] at hc
  subst hc
  exact ⟨rfl, rfl⟩

/-- Helper: any call recorded by the convention dispatch (the
`use_async`-guarded choice between the two call functions) uses the
convention `_use_async_api` selects for its model. -/
theorem dispatch_calls_aux (api_key model_s : String)
    (prompt negative_prompt : PyValue) (n : Int) (size : String)
    (prompt_extend watermark : PyValue)
    (backend : ImgCall → Except String ImgReply) (c : ImgCall)
    (hc : c ∈ (if use_async_api (Images.resolve_model model_s) = true then
        call_async_api api_key (Images.resolve_model model_s) prompt
          negative_prompt n size prompt_extend watermark backend
      else
        call_sync_api api_key (Images.resolve_model model_s) prompt
          negative_prompt n size prompt_extend watermark backend).2) :
    c.useAsync = use_async_api c.model := by
  by_cases hu : use_async_api (Images.resolve_model model_s) = true
  · rw [if_pos hu] at hc
    obtain ⟨h1, h2⟩ := call_async_api_calls _ _ _ _ _ _ _ _ _ _ hc
    rw [h1, h2, hu]
  · rw [if_neg hu] at hc
    obtain ⟨h1, h2⟩ := call_sync_api_calls _ _ _ _ _ _ _ _ _ _ hc
    simp only [Bool.not_eq_true] at hu
    rw [h1, h2, hu]

/-- Helper: every backend call the images handler issues uses exactly the
convention `_use_async_api` selects for that call's model. -/
theorem images_generations_convention (env : ImagesEnv) (req : ImagesRequest)
    (c : ImgCall) (hc : c ∈ (images_generations env req).calls) :
    c.useAsync = use_async_api c.model := by
  unfold images_generations at hc
  split at hc
  next => simp at hc
  next api_key heq1 =>
    split at hc
    next => simp at hc
    next body heq2 =>
      split at hc
      next => simp at hc
      next n heqn =>
        split at hc
        next => simp at hc
        next size heqs =>
          dsimp only at hc
          split at hc
          next => simp at hc
          next hprompt =>
            split at hc
            next model_s heqm =>
              split at hc
              next e cs heqc =>
                dsimp only at hc
                refine dispatch_calls_aux api_key model_s
                  (dictGet body "prompt" PyValue.pnull)
                  (dictGet body "negative_prompt" (PyValue.pstr "")) n size
                  (dictGet body "prompt_extend" (PyValue.pbool true))
                  (dictGet body "watermark" (PyValue.pbool false))
                  env.backend c ?_
                rw [heqc]
                exact hc
              next e cs heqc =>
                dsimp only at hc
                refine dispatch_calls_aux api_key model_s
                  (dictGet body "prompt" PyValue.pnull)
                  (dictGet body "negative_prompt" (PyValue.pstr "")) n size
                  (dictGet body "prompt_extend" (PyValue.pbool true))
                  (dictGet body "watermark" (PyValue.pbool false))
                  env.backend c ?_
                rw [heqc]
                exact hc
              next result cs heqc =>
                dsimp only at hc
                refine dispatch_calls_aux api_key model_s
                  (dictGet body "prompt" PyValue.pnull)
                  (dictGet body "negative_prompt" (PyValue.pstr "")) n size
                  (dictGet body "prompt_extend" (PyValue.pbool true))
                  (dictGet body "watermark" (PyValue.pbool false))
                  env.backend c ?_
                rw [heqc]
                exact hc
            next => simp at hc

/-- C1: for every image-generation request the calling convention is a
pure function of the resolved backend model name: async-only models get
the async convention; sync-only or sync-capable models get the sync
convention (sync preferred when both capability sets apply, since
async-only is checked first); models in no set get async.  Moreover every
backend call the handler issues uses exactly the convention
`_use_async_api` selects for its model. -/
theorem claim_C1 :
    (∀ m : String, Images.ASYNC_ONLY_MODELS.contains m = true →
      Images.use_async_api m = true) ∧
    (∀ m : String, Images.ASYNC_ONLY_MODELS.contains m = false →
      (Images.SYNC_ONLY_MODELS.contains m || Images.SYNC_MODELS.contains m) = true →
      Images.use_async_api m = false) ∧
    (∀ m : String, Images.ASYNC_ONLY_MODELS.contains m = false →
      Images.SYNC_ONLY_MODELS.contains m = false →
      Images.SYNC_MODELS.contains m = false →
      Images.use_async_api m = true) ∧
    (∀ (env : ImagesEnv) (req : ImagesRequest) (c : ImgCall),
      c ∈ (images_generations env req).calls →
      c.useAsync = use_async_api c.model) := by
  refine ⟨?_, ?_, ?_, fun env req c hc => images_generations_convention env req c hc⟩
  · intro m h
    unfold Images.use_async_api
    rw [h]
    simp
  · intro m h1 h2
    unfold Images.use_async_api
    rw [h1, h2]
    simp
  · intro m h1 h2 h3
    unfold Images.use_async_api
    rw [h1, h2, h3]
    simp

/-- Witness for C1 at concrete models and one concrete request. -/
theorem claim_C1_witness :
    Images.use_async_api "wan2.6-t2i" = true ∧
    Images.use_async_api "qwen-image-plus" = false ∧
    Images.use_async_api "mystery-model" = true ∧
    (⟨false, "k", "qwen-image-plus", .pstr "a cat", .pstr "", 1, "1664*928",
      .pbool true, .pbool false⟩ : ImgCall).useAsync
      = Images.use_async_api "qwen-image-plus" := by
  refine ⟨claim_C1.1 "wan2.6-t2i" (by decide),
          claim_C1.2.1 "qwen-image-plus" (by decide) (by decide),
          claim_C1.2.2.1 "mystery-model" (by decide) (by decide) (by decide),
          ?_⟩
  exact claim_C1.2.2.2
    ⟨"", "qwen-image-plus", fun _ => .ok ⟨200, "", "", none, .ok [⟨"http://u", ""⟩]⟩,
      fun _ => none, 0⟩
    ⟨"application/json", some [("prompt", .pstr "a cat")], [], some "Bearer k"⟩
    ⟨false, "k", "qwen-image-plus", .pstr "a cat", .pstr "", 1, "1664*928",
      .pbool true, .pbool false⟩
    (by decide)

/-- C6: for every canonical text `t` the srt format yields exactly
`"1\n00:00:00,000 --> 99:59:59,999\n" ++ t ++ "\n"` and the vtt format
yields exactly `"WEBVTT\n\n00:00:00.000 --> 99:59:59.999\n" ++ t ++ "\n"`,
in both modules; in particular at `t = "hello"` they produce the two exact
strings of the claim. -/
theorem claim_C6 : ∀ t : String,
    Trans.format_srt t = "1\n00:00:00,000 --> 99:59:59,999\n" ++ t ++ "\n" ∧
    Trans.format_vtt t = "WEBVTT\n\n00:00:00.000 --> 99:59:59.999\n" ++ t ++ "\n" ∧
    MainApp.format_srt t = "1\n00:00:00,000 --> 99:59:59,999\n" ++ t ++ "\n" ∧
    MainApp.format_vtt t = "WEBVTT\n\n00:00:00.000 --> 99:59:59.999\n" ++ t ++ "\n" ∧
    Trans.format_srt "hello" = "1\n00:00:00,000 --> 99:59:59,999\nhello\n" ∧
    Trans.format_vtt "hello" = "WEBVTT\n\n00:00:00.000 --> 99:59:59.999\nhello\n" :=
  fun t => ⟨rfl, rfl, rfl, rfl, by decide, by decide⟩

/-- Counterexample to C7 as stated: the public voice name `"ALLOY"` is
absent from the voice table, yet it is not returned unchanged — the
resolver lowercases before looking up, so it resolves to `"Chelsie"`. -/
theorem claim_C7_cex :
    Speech.resolve_voice "ALLOY" = "Chelsie" ∧
    Speech.VOICE_MAP.lookup "ALLOY" = none ∧
    ("Chelsie" : String) ≠ "ALLOY" :=
  ⟨by decide, by decide, by decide⟩

/-- C7 (amended): alias resolution is a pure function of the static
tables, looked up on the lowercased public name: a name whose lowercase
form is in the table resolves to its backend name (in particular
`"alloy"` resolves to `"Chelsie"`), and a name whose lowercase form is
absent passes through unchanged. -/
theorem claim_C7 : ∀ name b : String,
    (Speech.VOICE_MAP.lookup (pyLower name) = some b →
      Speech.resolve_voice name = b) ∧
    (Speech.VOICE_MAP.lookup (pyLower name) = none →
      Speech.resolve_voice name = name) ∧
    (Speech.MODEL_MAP.lookup (pyLower name) = some b →
      Speech.resolve_model name = b) ∧
    (Speech.MODEL_MAP.lookup (pyLower name) = none →
      Speech.resolve_model name = name) ∧
    (Images.MODEL_MAP.lookup (pyLower name) = some b →
      Images.resolve_model name = b) ∧
    (Images.MODEL_MAP.lookup (pyLower name) = none →
      Images.resolve_model name = name) ∧
    Speech.resolve_voice "alloy" = "Chelsie" := by
  intro name b
  refine ⟨fun h => ?_, fun h => ?_, fun h => ?_, fun h => ?_, fun h => ?_,
    fun h => ?_, by decide⟩
  all_goals
    simp [Speech.resolve_voice, Speech.resolve_model, Images.resolve_model, h]

/-- Witness for C7 at mapped and unmapped names of all three tables. -/
theorem claim_C7_witness :
    Speech.resolve_voice "alloy" = "Chelsie" ∧
    Speech.resolve_voice "Custom_Voice" = "Custom_Voice" ∧
    Speech.resolve_model "tts-1" = "qwen3-tts-flash" ∧
    Speech.resolve_model "my-model" = "my-model" ∧
    Images.resolve_model "dall-e-3" = "qwen-image-max" ∧
    Images.resolve_model "my-model" = "my-model" :=
  ⟨(claim_C7 "alloy" "Chelsie").1 (by decide),
   (claim_C7 "Custom_Voice" "x").2.1 (by decide),
   (claim_C7 "tts-1" "qwen3-tts-flash").2.2.1 (by decide),
   (claim_C7 "my-model" "x").2.2.2.1 (by decide),
   (claim_C7 "dall-e-3" "qwen-image-max").2.2.2.2.1 (by decide),
   (claim_C7 "my-model" "x").2.2.2.2.2.1 (by decide)⟩

/-- C9: a non-empty `Authorization` header that does not start with
`"Bearer "` yields the header value stripped of surrounding whitespace
(in both extractors), and the environment default key is consulted only
when the header is absent or empty: the result is independent of the
default when the header is non-empty, and an empty header behaves exactly
like an absent one. -/
theorem claim_C9 : ∀ a d : String,
    a.isEmpty = false → pyStartsWith a "Bearer " = false →
    (Common.extract_api_key (some a) d = .ok (pyStrip a) ∧
     MainApp.extract_api_key (some a) d = .ok (pyStrip a) ∧
     (∀ d2 : String, Common.extract_api_key (some a) d =
        Common.extract_api_key (some a) d2) ∧
     Common.extract_api_key (some "") d = Common.extract_api_key none d ∧
     MainApp.extract_api_key (some "") d = MainApp.extract_api_key none d) := by
  intro a d h1 h2
  refine ⟨?_, ?_, fun d2 => ?_, rfl, rfl⟩
  · simp [Common.extract_api_key, h1, h2]
  · simp [MainApp.extract_api_key, h1, h2]
  · simp [Common.extract_api_key, h1, h2]

/-- Witness for C9 at a concrete raw (non-Bearer) header value. -/
theorem claim_C9_witness :
    Common.extract_api_key (some " raw-key ") "envkey" = .ok (pyStrip " raw-key ") ∧
    Common.extract_api_key (some " raw-key ") "k1" =
      Common.extract_api_key (some " raw-key ") "k2" := by
  have h := claim_C9 " raw-key " "envkey" (by decide) (by decide)
  have h2 := claim_C9 " raw-key " "k1" (by decide) (by decide)
  exact ⟨h.1, h2.2.2.1 "k2"⟩

/-- C8: the standalone transcription handler of `main.py` and the routed
transcription handler of `routes/transcriptions.py` are behaviorally
equivalent: on every input and every backend reply they produce the same
outcome (response, error envelope and recorded backend calls). -/
theorem claim_C8 : ∀ (env : TransEnv) (req : TransRequest),
    MainApp.audio_transcriptions env req = Trans.audio_transcriptions env req :=
  fun env req => rfl

/-- Counterexample to C2 as stated: with no `Authorization` header and an
empty environment default, the error envelope's type is
`invalid_request_error`, not `permission_error`. -/
theorem claim_C2_cex :
    faultEtype (Trans.audio_transcriptions
      ⟨"", fun _ => none, fun _ => "", fun _ => .error "x", 0⟩
      ⟨[], none, none, "m", none, none, none, none⟩).result
      = some "invalid_request_error" ∧
    (some "invalid_request_error" : Option String) ≠ some "permission_error" :=
  ⟨by decide, by decide⟩

/-- C2 (amended): for every request to any of the three POST endpoints
with no `Authorization` header and an empty environment default key, the
request fails with HTTP 401 and an envelope of type
`invalid_request_error` carrying code `missing_api_key`, and no backend
call is attempted. -/
theorem claim_C2 : ∀ (tenv : TransEnv) (treq : TransRequest)
    (senv : SpeechEnv) (sreq : SpeechRequest)
    (ienv : ImagesEnv) (ireq : ImagesRequest),
    treq.authorization = none → tenv.defaultKey = "" →
    sreq.authorization = none → senv.defaultKey = "" →
    ireq.authorization = none → ienv.defaultKey = "" →
    (Trans.audio_transcriptions tenv treq =
       ⟨.error (.httpExc Common.missing_key_error), []⟩ ∧
     MainApp.audio_transcriptions tenv treq =
       ⟨.error (.httpExc Common.missing_key_error), []⟩ ∧
     Speech.audio_speech senv sreq =
       ⟨.error (.httpExc Common.missing_key_error), [], []⟩ ∧
     Images.images_generations ienv ireq =
       ⟨.error (.httpExc Common.missing_key_error), [], []⟩ ∧
     Common.missing_key_error.status = 401 ∧
     Common.missing_key_error.detail.etype = "invalid_request_error" ∧
     Common.missing_key_error.detail.code = some "missing_api_key") := by
  intro tenv treq senv sreq ienv ireq h1 h2 h3 h4 h5 h6
  have ht : Common.extract_api_key treq.authorization tenv.defaultKey =
      .error Common.missing_key_error := by
    rw [h1, h2]
    rfl
  have hs : Common.extract_api_key sreq.authorization senv.defaultKey =
      .error Common.missing_key_error := by
    rw [h3, h4]
    rfl
  have hi : Common.extract_api_key ireq.authorization ienv.defaultKey =
      .error Common.missing_key_error := by
    rw [h5, h6]
    rfl
  have hm : MainApp.extract_api_key treq.authorization tenv.defaultKey =
      .error Common.missing_key_error := by
    rw [h1, h2]
    rfl
  refine ⟨?_, ?_, ?_, ?_, rfl, rfl, rfl⟩
  · simp only [Trans.audio_transcriptions, ht]
  · simp only [MainApp.audio_transcriptions, hm]
  · simp only [Speech.audio_speech, hs]
  · simp only [Images.images_generations, hi]

/-- Witness for C2 at concrete requests with no header and empty default. -/
theorem claim_C2_witness :
    Trans.audio_transcriptions ⟨"", fun _ => none, fun _ => "", fun _ => .error "x", 0⟩
        ⟨[], none, none, "m", none, none, none, none⟩ =
      ⟨.error (.httpExc Common.missing_key_error), []⟩ ∧
    Common.missing_key_error.status = 401 ∧
    Common.missing_key_error.detail.code = some "missing_api_key" := by
  have h := claim_C2
    ⟨"", fun _ => none, fun _ => "", fun _ => .error "x", 0⟩
    ⟨[], none, none, "m", none, none, none, none⟩
    ⟨"", "dm", fun _ => .error "x", fun _ => .error "x", fun _ => .error "x"⟩
    ⟨"", none, [], none⟩
    ⟨"", "dm", fun _ => .error "x", fun _ => none, 0⟩
    ⟨"", none, [], none⟩ rfl rfl rfl rfl rfl rfl
  exact ⟨h.1, h.2.2.2.2.1, h.2.2.2.2.2.2⟩

/-- C3: for each POST endpoint, a request (with usable credentials)
missing its single required field — a non-empty audio upload for
transcriptions, `input` for speech, `prompt` for images — fails with a
400 `invalid_request_error` envelope and no backend call is attempted. -/
theorem claim_C3 :
    (∀ (env : TransEnv) (req : TransRequest) (a : String),
      req.authorization = some a → a.isEmpty = false →
      req.file_bytes = [] →
      Trans.audio_transcriptions env req =
        ⟨.error (.httpExc ⟨400, Common.build_openai_error "上传的音频文件为空。"
          "invalid_request_error" none⟩), []⟩) ∧
    (∀ (env : SpeechEnv) (req : SpeechRequest) (a : String) (body : Bodydict),
      req.authorization = some a → a.isEmpty = false →
      Speech.parse_body req = .ok body →
      body.lookup "input" = none →
      Speech.audio_speech env req =
        ⟨.error (.httpExc ⟨400, Common.build_openai_error "缺少必填参数: input"
          "invalid_request_error" none⟩), [], []⟩) ∧
    (∀ (env : ImagesEnv) (req : ImagesRequest) (a : String) (body : Bodydict),
      req.authorization = some a → a.isEmpty = false →
      Images.parse_body req = .ok body →
      body.lookup "prompt" = none →
      body.lookup "n" = none → body.lookup "size" = none →
      Images.images_generations env req =
        ⟨.error (.httpExc ⟨400, Common.build_openai_error "缺少必填参数: prompt"
          "invalid_request_error" none⟩), [], []⟩) := by
  refine ⟨?_, ?_, ?_⟩
  · intro env req a h1 h2 h3
    obtain ⟨k, hk⟩ := extract_some_ok a env.defaultKey h2
    rw [← h1] at hk
    simp [Trans.audio_transcriptions, hk, h3]
  · intro env req a body h1 h2 hp hi
    obtain ⟨k, hk⟩ := extract_some_ok a env.defaultKey h2
    rw [← h1] at hk
    simp [Speech.audio_speech, hk, hp, dictGet, hi, PyValue.truthy]
  · intro env req a body h1 h2 hp hpr hn hs
    obtain ⟨k, hk⟩ := extract_some_ok a env.defaultKey h2
    rw [← h1] at hk
    simp [Images.images_generations, hk, hp, dictGet, hpr, hn, hs,
      PyValue.truthy, PyValue.toInt, Images.normalize_size]

/-- Witness for C3 at concrete requests missing their required fields. -/
theorem claim_C3_witness :
    Trans.audio_transcriptions
        ⟨"", fun _ => none, fun _ => "", fun _ => .error "x", 0⟩
        ⟨[], none, none, "m", none, none, none, some "Bearer k"⟩ =
      ⟨.error (.httpExc ⟨400, Common.build_openai_error "上传的音频文件为空。"
        "invalid_request_error" none⟩), []⟩ ∧
    Speech.audio_speech
        ⟨"env", "dm", fun _ => .error "x", fun _ => .error "x", fun _ => .error "x"⟩
        ⟨"application/json", some [], [], some "Bearer k"⟩ =
      ⟨.error (.httpExc ⟨400, Common.build_openai_error "缺少必填参数: input"
        "invalid_request_error" none⟩), [], []⟩ ∧
    Images.images_generations
        ⟨"env", "dm", fun _ => .error "x", fun _ => none, 0⟩
        ⟨"application/json", some [], [], some "Bearer k"⟩ =
      ⟨.error (.httpExc ⟨400, Common.build_openai_error "缺少必填参数: prompt"
        "invalid_request_error" none⟩), [], []⟩ :=
  ⟨claim_C3.1 ⟨"", fun _ => none, fun _ => "", fun _ => .error "x", 0⟩
      ⟨[], none, none, "m", none, none, none, some "Bearer k"⟩
      "Bearer k" rfl (by decide) rfl,
   claim_C3.2.1 ⟨"env", "dm", fun _ => .error "x", fun _ => .error "x", fun _ => .error "x"⟩
      ⟨"application/json", some [], [], some "Bearer k"⟩
      "Bearer k" [] rfl (by decide) (by decide) rfl,
   claim_C3.2.2 ⟨"env", "dm", fun _ => .error "x", fun _ => none, 0⟩
      ⟨"application/json", some [], [], some "Bearer k"⟩
      "Bearer k" [] rfl (by decide) (by decide) rfl rfl rfl⟩

/-- C4: whenever the backend reports a non-success status `s`, the
gateway's error status is `s` when `s` lies in `[400, 599]` and `502`
otherwise, so it always lies in `[400, 599]`; this holds for the shared
clamping expression and at the transcription, speech and images
(`_call_async_api`, `_call_sync_api`) backend-error sites. -/
theorem claim_C4 :
    (∀ s : Nat, 400 ≤ upstreamStatus s ∧ upstreamStatus s ≤ 599 ∧
      (400 ≤ s ∧ s ≤ 599 → upstreamStatus s = s) ∧
      (¬(400 ≤ s ∧ s ≤ 599) → upstreamStatus s = 502)) ∧
    (∀ (env : TransEnv) (req : TransRequest) (a : String) (reply : AsrReply),
      req.authorization = some a → a.isEmpty = false →
      req.file_bytes.isEmpty = false →
      env.backend = (fun _ => .ok reply) →
      reply.status_code ≠ 200 →
      faultStatus (Trans.audio_transcriptions env req).result =
        some (upstreamStatus reply.status_code) ∧
      faultEtype (Trans.audio_transcriptions env req).result =
        some "upstream_error") ∧
    (∀ (env : SpeechEnv) (req : SpeechRequest) (a t : String)
      (body : Bodydict) (reply : TtsReply),
      req.authorization = some a → a.isEmpty = false →
      Speech.parse_body req = .ok body →
      body.lookup "input" = some (.pstr t) → t.isEmpty = false →
      body.lookup "model" = none → body.lookup "voice" = none →
      env.backend = (fun _ => .ok reply) →
      reply.status_code ≠ 200 →
      faultStatus (Speech.audio_speech env req).result =
        some (upstreamStatus reply.status_code) ∧
      faultEtype (Speech.audio_speech env req).result =
        some "upstream_error") ∧
    (∀ (api_key model : String) (prompt negative_prompt : PyValue) (n : Int)
      (size : String) (prompt_extend watermark : PyValue) (reply : ImgReply),
      reply.status_code ≠ 200 →
      faultStatus (call_async_api api_key model prompt negative_prompt n size
          prompt_extend watermark (fun _ => .ok reply)).1 =
        some (upstreamStatus reply.status_code) ∧
      faultEtype (call_async_api api_key model prompt negative_prompt n size
          prompt_extend watermark (fun _ => .ok reply)).1 =
        some "upstream_error" ∧
      faultStatus (call_sync_api api_key model prompt negative_prompt n size
          prompt_extend watermark (fun _ => .ok reply)).1 =
        some (upstreamStatus reply.status_code) ∧
      faultEtype (call_sync_api api_key model prompt negative_prompt n size
          prompt_extend watermark (fun _ => .ok reply)).1 =
        some "upstream_error") := by
  refine ⟨?_, ?_, ?_, ?_⟩
  · intro s
    unfold upstreamStatus
    refine ⟨?_, ?_, ?_, ?_⟩
    · split_ifs with h
      · omega
      · omega
    · split_ifs with h
      · omega
      · omega
    · intro h
      rw [if_pos]
      omega
    · intro h
      rw [if_neg]
      omega
  · intro env req a reply h1 h2 h3 h4 h5
    obtain ⟨k, hk⟩ := extract_some_ok a env.defaultKey h2
    rw [← h1] at hk
    constructor
    all_goals simp [Trans.audio_transcriptions, hk, h3, h4, h5, faultStatus, faultEtype,
      Common.build_openai_error]
  · intro env req a t body reply h1 h2 hp hi ht hm hv h4 h5
    obtain ⟨k, hk⟩ := extract_some_ok a env.defaultKey h2
    rw [← h1] at hk
    constructor
    all_goals simp [Speech.audio_speech, hk, hp, dictGet, hi, ht, hm, hv,
      PyValue.truthy, pyOr, h4, h5, faultStatus, faultEtype, Common.build_openai_error,
      show ("" : String).isEmpty = true from rfl]
  · intro api_key model prompt negative_prompt n size prompt_extend watermark reply h
    refine ⟨?_, ?_, ?_, ?_⟩
    all_goals simp [call_async_api, call_sync_api, h, faultStatus, faultEtype,
      Common.build_openai_error]

/-- Witness for C4: in-range and out-of-range backend statuses at the
clamp and at concrete handler/call runs. -/
theorem claim_C4_witness :
    upstreamStatus 404 = 404 ∧ upstreamStatus 700 = 502 ∧
    faultStatus (Trans.audio_transcriptions
      ⟨"", fun _ => none, fun _ => "",
        fun _ => .ok ⟨404, "oops", "r", none, .error "no"⟩, 0⟩
      ⟨[1], none, none, "m", none, none, none, some "Bearer k"⟩).result =
      some (upstreamStatus 404) ∧
    faultStatus (Speech.audio_speech
      ⟨"", "dm", fun _ => .ok ⟨700, "oops", "r", none, none⟩,
        fun _ => .error "x", fun _ => .error "x"⟩
      ⟨"application/json", some [("input", .pstr "hi")], [], some "Bearer k"⟩).result =
      some (upstreamStatus 700) ∧
    faultStatus (call_async_api "k" "m" (.pstr "p") (.pstr "") 1 "1664*928"
      (.pbool true) (.pbool false)
      (fun _ => .ok ⟨503, "busy", "r", none, .ok []⟩)).1 =
      some (upstreamStatus 503) := by
  refine ⟨(claim_C4.1 404).2.2.1 (by decide), (claim_C4.1 700).2.2.2 (by decide),
    ?_, ?_, ?_⟩
  · exact (claim_C4.2.1
      ⟨"", fun _ => none, fun _ => "",
        fun _ => .ok ⟨404, "oops", "r", none, .error "no"⟩, 0⟩
      ⟨[1], none, none, "m", none, none, none, some "Bearer k"⟩
      "Bearer k" ⟨404, "oops", "r", none, .error "no"⟩
      rfl (by decide) (by decide) rfl (by decide)).1
  · exact (claim_C4.2.2.1
      ⟨"", "dm", fun _ => .ok ⟨700, "oops", "r", none, none⟩,
        fun _ => .error "x", fun _ => .error "x"⟩
      ⟨"application/json", some [("input", .pstr "hi")], [], some "Bearer k"⟩
      "Bearer k" "hi" [("input", .pstr "hi")] ⟨700, "oops", "r", none, none⟩
      rfl (by decide) (by decide) (by decide) (by decide) (by decide) (by decide)
      rfl (by decide)).1
  · exact (claim_C4.2.2.2 "k" "m" (.pstr "p") (.pstr "") 1 "1664*928"
      (.pbool true) (.pbool false) ⟨503, "busy", "r", none, .ok []⟩ (by decide)).1

/-- Counterexample to C5 as stated: the response_format value `"TEXT"` is
not one of the four strings `text`, `verbose_json`, `srt`, `vtt`, yet the
response is the plain-text body, not the JSON object with the text — the
handler lowercases the format before dispatching. -/
theorem claim_C5_cex :
    (Trans.audio_transcriptions
      ⟨"", fun _ => none, fun _ => "QUJD",
        fun _ => .ok ⟨200, "", "", none, .ok "hello"⟩, 3⟩
      ⟨[1], none, none, "m", none, none, some "TEXT", some "Bearer k"⟩).result
      = .ok (.plain "hello" none) ∧
    TransResponse.plain "hello" none ≠ TransResponse.jsonText "hello" :=
  ⟨by decide, by decide⟩

/-- C5 (amended): for every response_format whose lowercased resolved
value (absent and empty values resolve to `json`) is none of `text`,
`verbose_json`, `srt`, `vtt`, a successful transcription responds with
the JSON object carrying the canonical text, and no format value causes
an error. -/
theorem claim_C5 : ∀ (env : TransEnv) (req : TransRequest) (a t : String)
    (reply : AsrReply),
    req.authorization = some a → a.isEmpty = false →
    req.file_bytes.isEmpty = false →
    env.backend = (fun _ => .ok reply) →
    reply.status_code = 200 →
    reply.textResult = .ok t →
    pyLower (or_default req.response_format "json") ≠ "text" →
    pyLower (or_default req.response_format "json") ≠ "verbose_json" →
    pyLower (or_default req.response_format "json") ≠ "srt" →
    pyLower (or_default req.response_format "json") ≠ "vtt" →
    (Trans.audio_transcriptions env req).result = .ok (.jsonText t) := by
  intro env req a t reply h1 h2 h3 h4 h5 h6 hf1 hf2 hf3 hf4
  obtain ⟨k, hk⟩ := extract_some_ok a env.defaultKey h2
  rw [← h1] at hk
  simp [Trans.audio_transcriptions, hk, h3, h4, h5, h6, hf1, hf2, hf3, hf4]

/-- Witness for C5 at a concrete unrecognized format string. -/
theorem claim_C5_witness :
    (Trans.audio_transcriptions
      ⟨"", fun _ => none, fun _ => "QUJD",
        fun _ => .ok ⟨200, "", "", none, .ok "hello"⟩, 3⟩
      ⟨[1], none, none, "m", none, none, some "subtitles", some "Bearer k"⟩).result
      = .ok (.jsonText "hello") :=
  claim_C5
    ⟨"", fun _ => none, fun _ => "QUJD",
      fun _ => .ok ⟨200, "", "", none, .ok "hello"⟩, 3⟩
    ⟨[1], none, none, "m", none, none, some "subtitles", some "Bearer k"⟩
    "Bearer k" "hello" ⟨200, "", "", none, .ok "hello"⟩
    rfl (by decide) (by decide) rfl rfl rfl
    (by decide) (by decide) (by decide) (by decide)

/-- C10: in speech response handling, a truthy inline `data` payload is
base64-decoded (with an optional data-URI head stripped at the first
comma) and the `url` is never fetched — the result is independent of the
fetcher and the fetched-URL log stays empty; the `url` is fetched only
when `data` is absent or empty; and when both are absent the request
fails with HTTP 502 and type `upstream_error`, also at the full-handler
level. -/
theorem claim_C10 :
    (∀ (dec fetch : String → Except String (List Nat)) (obj : Speech.AudioObj)
      (bs : List Nat), obj.data.isEmpty = false →
      ((Speech.extract_audio (some obj) dec fetch).2 = [] ∧
       (∀ fetch2, Speech.extract_audio (some obj) dec fetch =
          Speech.extract_audio (some obj) dec fetch2) ∧
       (pyStartsWith obj.data "data:" = false → dec obj.data = .ok bs →
         Speech.extract_audio (some obj) dec fetch = (.ok bs, [])) ∧
       (∀ rest : String, pyStartsWith obj.data "data:" = true →
         Speech.splitFirstComma obj.data = some rest → dec rest = .ok bs →
         Speech.extract_audio (some obj) dec fetch = (.ok bs, [])))) ∧
    (∀ (dec fetch : String → Except String (List Nat)) (obj : Speech.AudioObj)
      (bs : List Nat), obj.data = "" → obj.url.isEmpty = false →
      fetch obj.url = .ok bs →
      Speech.extract_audio (some obj) dec fetch = (.ok bs, [obj.url])) ∧
    (∀ (dec fetch : String → Except String (List Nat)) (obj : Speech.AudioObj),
      obj.data = "" → obj.url = "" →
      Speech.extract_audio (some obj) dec fetch =
        (.error (.httpExc ⟨502, Common.build_openai_error
          "无法解析上游 TTS 响应: audio 字段中无 url 也无 data"
          "upstream_error" none⟩), [])) ∧
    (∀ (env : SpeechEnv) (req : SpeechRequest) (a t : String)
      (body : Bodydict) (reply : TtsReply),
      req.authorization = some a → a.isEmpty = false →
      Speech.parse_body req = .ok body →
      body.lookup "input" = some (.pstr t) → t.isEmpty = false →
      body.lookup "model" = none → body.lookup "voice" = none →
      env.backend = (fun _ => .ok reply) →
      reply.status_code = 200 →
      reply.output_audio = some ⟨"", ""⟩ →
      faultStatus (Speech.audio_speech env req).result = some 502 ∧
      faultEtype (Speech.audio_speech env req).result = some "upstream_error") := by
  refine ⟨?_, ?_, ?_, ?_⟩
  · intro dec fetch obj bs h
    refine ⟨?_, fun fetch2 => ?_, fun hds hdec => ?_, fun rest hds hsp hdec => ?_⟩
    · simp only [Speech.extract_audio, h, Bool.not_false, if_true]
      split <;> rfl
    · simp only [Speech.extract_audio, h, Bool.not_false, if_true]
    · simp [Speech.extract_audio, h, hds, hdec]
    · simp [Speech.extract_audio, h, hds, hsp, hdec]
  · intro dec fetch obj bs hd hu hf
    simp [Speech.extract_audio, hd, hu, hf,
      show ("" : String).isEmpty = true from rfl]
  · intro dec fetch obj hd hu
    simp [Speech.extract_audio, hd, hu,
      show ("" : String).isEmpty = true from rfl]
  · intro env req a t body reply h1 h2 hp hi ht hm hv hb h200 haud
    obtain ⟨k, hk⟩ := extract_some_ok a env.defaultKey h2
    rw [← h1] at hk
    constructor
    all_goals simp [Speech.audio_speech, hk, hp, dictGet, hi, ht, hm, hv,
      PyValue.truthy, pyOr, hb, h200, haud, Speech.extract_audio,
      faultStatus, faultEtype, Common.build_openai_error,
      show ("" : String).isEmpty = true from rfl]

/-- Witness for C10 at concrete audio objects and one concrete request:
inline data wins (nothing fetched), URL is fetched only without data,
and both-absent is a 502 upstream error. -/
theorem claim_C10_witness :
    Speech.extract_audio (some ⟨"http://u", "QUJD"⟩)
        (fun _ => .ok [65, 66, 67]) (fun _ => .ok [9]) = (.ok [65, 66, 67], []) ∧
    Speech.extract_audio (some ⟨"", "data:audio/mp3;base64,QUJD"⟩)
        (fun s => if s = "QUJD" then .ok [65, 66, 67] else .error "bad")
        (fun _ => .ok [9]) = (.ok [65, 66, 67], []) ∧
    Speech.extract_audio (some ⟨"http://u", ""⟩)
        (fun _ => .error "bad") (fun _ => .ok [1, 2]) = (.ok [1, 2], ["http://u"]) ∧
    Speech.extract_audio (some ⟨"", ""⟩)
        (fun _ => .error "bad") (fun _ => .ok [9]) =
      (.error (.httpExc ⟨502, Common.build_openai_error
        "无法解析上游 TTS 响应: audio 字段中无 url 也无 data"
        "upstream_error" none⟩), []) ∧
    faultStatus (Speech.audio_speech
      ⟨"", "dm", fun _ => .ok ⟨200, "", "", none, some ⟨"", ""⟩⟩,
        fun _ => .error "bad", fun _ => .error "bad"⟩
      ⟨"application/json", some [("input", .pstr "hi")], [], some "Bearer k"⟩).result =
      some 502 := by
  refine ⟨?_, ?_, ?_, ?_, ?_⟩
  · exact (claim_C10.1 (fun _ => .ok [65, 66, 67]) (fun _ => .ok [9])
      ⟨"http://u", "QUJD"⟩ [65, 66, 67] (by decide)).2.2.1 (by decide) rfl
  · exact (claim_C10.1
      (fun s => if s = "QUJD" then .ok [65, 66, 67] else .error "bad")
      (fun _ => .ok [9]) ⟨"", "data:audio/mp3;base64,QUJD"⟩ [65, 66, 67]
      (by decide)).2.2.2 "QUJD" (by decide) (by decide) (by decide)
  · exact claim_C10.2.1 (fun _ => .error "bad") (fun _ => .ok [1, 2])
      ⟨"http://u", ""⟩ [1, 2] rfl (by decide) rfl
  · exact claim_C10.2.2.1 (fun _ => .error "bad") (fun _ => .ok [9])
      ⟨"", ""⟩ rfl rfl
  · exact (claim_C10.2.2.2
      ⟨"", "dm", fun _ => .ok ⟨200, "", "", none, some ⟨"", ""⟩⟩,
        fun _ => .error "bad", fun _ => .error "bad"⟩
      ⟨"application/json", some [("input", .pstr "hi")], [], some "Bearer k"⟩
      "Bearer k" "hi" [("input", .pstr "hi")] ⟨200, "", "", none, some ⟨"", ""⟩⟩
      rfl (by decide) (by decide) (by decide) (by decide) (by decide) (by decide)
      rfl rfl rfl).1

end DSR
